import Mathlib

/-!
Verification of the RPMMonitoring repository's patient-status policy.

The embedding follows `src/ui/main_window.py` (the application launched by
`src/main.py`), `src/api/patient_data.py`, `src/config.py`, and the legacy
monolith `src/RemotePatientMonitoringApp.py`.  JSON measurement objects are
records of optional fields (a missing key is `none`); HTTP traffic is an
explicit `TransportOutcome` argument; Qt side effects (dialogs, styling) are
abstracted into the returned outcome values.
-/

/-- `SPO2_THRESHOLD` from `src/config.py`. -/
def SPO2_THRESHOLD : Int := 95

/-- `VALID_PATIENTS` from `src/config.py`. -/
def VALID_PATIENTS : List Nat := [1, 2, 3, 10, 42]

/-- A JSON measurement object from the payload's `measurements` array:
either field may be absent (`none`). -/
structure Measurement where
  timestamp : Option String
  spo2 : Option Int
deriving DecidableEq, Repr

/-- The spec's `Reading`: a measurement in which both fields are present. -/
structure Reading where
  timestamp : String
  spo2 : Int
deriving DecidableEq, Repr

/-- A `Reading` viewed as the JSON measurement object carrying it. -/
def Reading.toMeasurement (r : Reading) : Measurement :=
  ⟨some r.timestamp, some r.spo2⟩

/-- `measurement.get("spo2", 0)` — a missing `spo2` field defaults to `0`
(`src/ui/main_window.py`, lines 143 and 201). -/
def measurementSpo2 (m : Measurement) : Int :=
  m.spo2.getD 0

/-- The aggregate verdict strings assigned to `self.status` in
`RPMApp.update_status`: `"Unknown"`, `"Warning"`, `"OK"`. -/
inductive Verdict
  | Unknown
  | Warning
  | OK
deriving DecidableEq, Repr

/-- `RPMApp.update_status` (`src/ui/main_window.py` lines 182-243), reduced to
the verdict it assigns: empty measurement list gives `Unknown`; otherwise the
loop sets `low_reading` iff some `m.get("spo2", 0)` is below the threshold,
yielding `Warning`, else `OK`. -/
def update_status (threshold : Int) (measurements : List Measurement) : Verdict :=
  if measurements = [] then
    .Unknown
  else if measurements.any (fun m => decide (measurementSpo2 m < threshold)) then
    .Warning
  else
    .OK

/-- The per-row status text of `RPMApp.update_table`
(`src/ui/main_window.py` line 155): `"NORMAL" if spo2 >= SPO2_THRESHOLD else "LOW"`. -/
inductive RowStatus
  | NORMAL
  | LOW
deriving DecidableEq, Repr

/-- Line 155 of `src/ui/main_window.py`, with the threshold as a parameter:
the comparison is plain integer `>=`, applied to any integer unchanged. -/
def per_reading_status (threshold spo2 : Int) : RowStatus :=
  if threshold ≤ spo2 then .NORMAL else .LOW

/-- Python `min` over a list: `none` on the empty list. -/
def pyMin : List Int → Option Int
  | [] => none
  | x :: xs => some (xs.foldl min x)

/-- The list comprehension `[m["spo2"] for m in measurements]` of
`analyze_data`: indexing raises `KeyError` (here failure) when any
measurement lacks the field. -/
def extractSpo2s : List Measurement → Option (List Int)
  | [] => some []
  | m :: ms =>
    match m.spo2, extractSpo2s ms with
    | some v, some vs => some (v :: vs)
    | _, _ => none

/-- `RemotePatientMonitoringApp.analyze_data` (`src/RemotePatientMonitoringApp.py`
lines 394-420): `m["spo2"]` raises `KeyError` when the field is missing
(modelled as `none`); otherwise empty list gives `Unknown`
("No data available"), and the minimum is compared against the literal 95. -/
def analyze_data (body : Option (List Measurement)) : Option Verdict :=
  let measurements := body.getD []
  match extractSpo2s measurements with
  | none => none
  | some spo2_values =>
    match pyMin spo2_values with
    | none => some .Unknown
    | some lowest =>
      if 95 ≤ lowest then some .OK else some .Warning

/-- Two decimal digits read as a number in 0..99; `none` if either character
is not a digit. -/
def twoDigits (a b : Char) : Option Nat :=
  if a.isDigit ∧ b.isDigit then some (10 * (a.toNat - 48) + (b.toNat - 48)) else none

/-- A valid trailing UTC-offset suffix for `fromisoformat`: either absent or
of the form `±HH:MM` with `HH ≤ 23` and `MM ≤ 59`. -/
def validOffset : List Char → Bool
  | [] => true
  | [sgn, o1, o2, colon, o3, o4] =>
    decide ((sgn = '+' ∨ sgn = '-') ∧ colon = ':') &&
      (match twoDigits o1 o2, twoDigits o3 o4 with
       | some oh, some om => decide (oh ≤ 23 ∧ om ≤ 59)
       | _, _ => false)
  | _ => false

/-- Modelled from the Python standard library: `datetime.fromisoformat`,
restricted to strings of the shape `YYYY-MM-DD(T| )HH:MM:SS` with an optional
`±HH:MM` offset suffix; all other strings — in particular the empty string —
raise `ValueError`, modelled as `none`.  (Day-of-month is validated only to
the range 1..31, a simplification of the calendar check.) -/
def fromisoformat (s : String) : Option (Nat × Nat × Nat × Nat × Nat × Nat) :=
  match s.toList with
  | y1 :: y2 :: y3 :: y4 :: '-' :: mo1 :: mo2 :: '-' :: da1 :: da2 :: sep ::
      h1 :: h2 :: ':' :: mi1 :: mi2 :: ':' :: se1 :: se2 :: rest =>
    match twoDigits y1 y2, twoDigits y3 y4, twoDigits mo1 mo2, twoDigits da1 da2,
        twoDigits h1 h2, twoDigits mi1 mi2, twoDigits se1 se2 with
    | some yh, some yl, some mo, some da, some h, some mi, some se =>
      if (sep = 'T' ∨ sep = ' ') ∧ validOffset rest = true ∧
          1 ≤ mo ∧ mo ≤ 12 ∧ 1 ≤ da ∧ da ≤ 31 ∧ h ≤ 23 ∧ mi ≤ 59 ∧ se ≤ 59 then
        some (100 * yh + yl, mo, da, h, mi, se)
      else none
    | _, _, _, _, _, _, _ => none
  | _ => none

/-- `timestamp.replace('Z', '+00:00')`: every `Z` is expanded to `+00:00`. -/
def pyReplaceZ (s : String) : String :=
  String.mk (s.toList.flatMap fun c => if c = 'Z' then ['+', '0', '0', ':', '0', '0'] else [c])

/-- The per-row extraction of `RPMApp.update_table`
(`src/ui/main_window.py` lines 141-153): a missing timestamp defaults to `""`
and a missing spo2 to `0`, then `datetime.fromisoformat` is applied to the
`Z`-normalised timestamp; a parse failure aborts the update with an
exception (`none`). -/
def decodeRow (m : Measurement) : Option (String × Int) :=
  let timestamp := m.timestamp.getD ""
  let spo2 := measurementSpo2 m
  match fromisoformat (pyReplaceZ timestamp) with
  | none => none
  | some _ => some (timestamp, spo2)

/-- `RPMApp.update_table` over the measurement list: rows are processed in
order and the first parse failure raises, so the table update succeeds iff
every row decodes. -/
def update_table : List Measurement → Option (List (String × Int))
  | [] => some []
  | m :: ms =>
    match decodeRow m, update_table ms with
    | some r, some rs => some (r :: rs)
    | _, _ => none

/-- The outcome of one `requests.get`/`requests.post` call: either the network
fails (`requests.exceptions.RequestException`) or an HTTP response arrives with
a status code and a parsed JSON body, here reduced to its `measurements` field
(`none` when the key is absent, as in `data.get("measurements", [])`). -/
inductive TransportOutcome
  | netFail
  | response (status : Nat) (body : Option (List Measurement))
deriving DecidableEq, Repr

/-- The spec's error taxonomy for fetch as realised by the code: a
`RequestException` (network failure or `raise_for_status` on a 4xx/5xx code)
is a `TransportError`; an exception while parsing the payload into rows is a
`DecodeError`. -/
inductive FetchError
  | TransportError
  | DecodeError
deriving DecidableEq, Repr

/-- The fields of `RPMApp` touched by the claims: the selected patient, the
last verdict assigned to `self.status`, the measurement list, and the advice
text of the message box. -/
structure AppState where
  current_patient : Option Nat
  status : Verdict
  measurements : List Measurement
  message_text : String
deriving DecidableEq, Repr

/-- `RPMApp.fetch_patient_data` (`src/ui/main_window.py` lines 74-129) as a
state transition.  The sequencing follows the source: `self.current_patient`
is assigned before the network call; on transport failure nothing else
changes (the error dialog and red styling are the returned error); on a
successful response `self.measurements` is REPLACED before `update_table`
runs, so a decode failure leaves the new list in place with the old verdict;
only after a full table update does `update_status` assign the new verdict. -/
def fetch_patient_data (threshold : Int) (pid : Nat) (st : AppState)
    (net : TransportOutcome) : AppState × Option FetchError :=
  match net with
  | .netFail => ({ st with current_patient := some pid }, some .TransportError)
  | .response status body =>
    if 400 ≤ status ∧ status < 600 then
      ({ st with current_patient := some pid }, some .TransportError)
    else
      let ms := body.getD []
      let st1 := { st with current_patient := some pid, measurements := ms }
      match update_table ms with
      | none => (st1, some .DecodeError)
      | some _ => ({ st1 with status := update_status threshold ms }, none)

/-- Python truthiness of the optional patient id (`not self.current_patient`):
`None` and `0` are falsy, every other id truthy. -/
def pyTruthy : Option Nat → Bool
  | none => false
  | some n => n != 0

/-- The whitespace characters stripped by Python's `str.strip()`. -/
def pySpace (c : Char) : Bool :=
  c == ' ' || c == '\t' || c == '\n' || c == '\r' || c == '\x0b' || c == '\x0c'

/-- `message.strip()`: leading and trailing whitespace removed. -/
def pyStrip (s : String) : String :=
  String.mk (((s.toList.dropWhile pySpace).reverse.dropWhile pySpace).reverse)

/-- The outcome of the `requests.post` issued by `send_patient_message`:
network failure, or a response with a status code and the optional `stored`
field of its JSON body (`none` when the key is absent). -/
inductive SendNet
  | netFail
  | response (status : Nat) (stored : Option Bool)
deriving DecidableEq, Repr

/-- The observable result of one `RPMApp.send_message` invocation: the silent
guard return, the missing-message warning dialog, the success dialog, the
not-stored warning dialog, or the transport-error dialog. -/
inductive SendOutcome
  | guardReturn
  | emptyMessageWarning
  | sentStored
  | sentNotStored
  | sendErrorDialog
deriving DecidableEq, Repr

/-- Result of a send: the new state, which dialog (if any) was shown, and
whether the HTTP POST was issued at all. -/
structure SendResult where
  state : AppState
  outcome : SendOutcome
  networkCalled : Bool
deriving DecidableEq, Repr

/-- `RPMApp.send_message` (`src/ui/main_window.py` lines 245-308) as a state
transition.  Sequencing follows the source: the guard
`if not self.current_patient or self.status != "Warning": return` comes first;
then the stripped message is checked for emptiness BEFORE any network call;
only then is `send_patient_message` invoked.  `result.get("stored", False)`
truthy clears the message text; otherwise — not-stored acknowledgment or a
`RequestException` — the text is left untouched. -/
def send_message (st : AppState) (net : SendNet) : SendResult :=
  if pyTruthy st.current_patient = true ∧ st.status = .Warning then
    if pyStrip st.message_text = "" then
      ⟨st, .emptyMessageWarning, false⟩
    else
      match net with
      | .netFail => ⟨st, .sendErrorDialog, true⟩
      | .response status stored =>
        if 400 ≤ status ∧ status < 600 then
          ⟨st, .sendErrorDialog, true⟩
        else if stored.getD false = true then
          ⟨{ st with message_text := "" }, .sentStored, true⟩
        else
          ⟨st, .sentNotStored, true⟩
  else
    ⟨st, .guardReturn, false⟩

theorem le_foldl_min (c : Int) : ∀ (ys : List Int) (x : Int),
    (c ≤ ys.foldl min x ↔ c ≤ x ∧ ∀ y ∈ ys, c ≤ y) := by
  intro ys
  induction ys with
  | nil => simp
  | cons y ys ih =>
    intro x
    simp only [List.foldl_cons, ih, le_min_iff, List.mem_cons]
    constructor
    · rintro ⟨⟨hx, hy⟩, hys⟩
      exact ⟨hx, fun z hz => hz.elim (fun h => h ▸ hy) (hys z)⟩
    · rintro ⟨hx, hall⟩
      exact ⟨⟨hx, hall y (Or.inl rfl)⟩, fun z hz => hall z (Or.inr hz)⟩

theorem extractSpo2s_toMeasurement (rs : List Reading) :
    extractSpo2s (rs.map Reading.toMeasurement) = some (rs.map Reading.spo2) := by
  induction rs with
  | nil => rfl
  | cons r rs ih =>
    simp [extractSpo2s, ih, Reading.toMeasurement]

theorem update_status_warning_iff (T : Int) (ms : List Measurement) :
    update_status T ms = .Warning ↔ ms ≠ [] ∧ ∃ m ∈ ms, measurementSpo2 m < T := by
  unfold update_status
  split_ifs with he ha
  · simp [he]
  · simp only [List.any_eq_true, decide_eq_true_eq] at ha
    constructor
    · intro _
      exact ⟨he, ha⟩
    · intro _
      trivial
  · simp only [List.any_eq_true, decide_eq_true_eq] at ha
    constructor
    · intro h
      simp at h
    · rintro ⟨-, m, hm, hlt⟩
      exact absurd ⟨m, hm, hlt⟩ ha

theorem update_status_ok_iff (T : Int) (ms : List Measurement) :
    update_status T ms = .OK ↔ ms ≠ [] ∧ ∀ m ∈ ms, T ≤ measurementSpo2 m := by
  unfold update_status
  split_ifs with he ha
  · simp [he]
  · simp only [List.any_eq_true, decide_eq_true_eq] at ha
    constructor
    · intro h
      simp at h
    · rintro ⟨-, hall⟩
      obtain ⟨m, hm, hlt⟩ := ha
      exact absurd (hall m hm) (not_le.mpr hlt)
  · simp only [List.any_eq_true, decide_eq_true_eq] at ha
    push_neg at ha
    constructor
    · intro _
      exact ⟨he, ha⟩
    · intro _
      trivial

theorem update_status_unknown_iff (T : Int) (ms : List Measurement) :
    update_status T ms = .Unknown ↔ ms = [] := by
  unfold update_status
  split_ifs with he ha
  · simp [he]
  · simp [he]
  · simp [he]

/-- C1: for every list of readings and threshold `T`, `update_status` yields
`Warning` iff the list is non-empty and some reading's spo2 is strictly below
`T`; `OK` iff the list is non-empty and every reading's spo2 is at least `T`;
`Unknown` iff the list is empty.  Moreover the legacy
`analyze_data` returns the same verdict at the configured threshold 95. -/
theorem C1_status_evaluation (T : Int) (rs : List Reading) :
    (update_status T (rs.map Reading.toMeasurement) = .Warning ↔
      rs ≠ [] ∧ ∃ r ∈ rs, r.spo2 < T) ∧
    (update_status T (rs.map Reading.toMeasurement) = .OK ↔
      rs ≠ [] ∧ ∀ r ∈ rs, T ≤ r.spo2) ∧
    (update_status T (rs.map Reading.toMeasurement) = .Unknown ↔ rs = []) ∧
    analyze_data (some (rs.map Reading.toMeasurement)) =
      some (update_status 95 (rs.map Reading.toMeasurement)) := by
  refine ⟨?_, ?_, ?_, ?_⟩
  · rw [update_status_warning_iff]
    constructor
    · rintro ⟨hne, m, hm, hlt⟩
      obtain ⟨r, hr, rfl⟩ := List.mem_map.mp hm
      exact ⟨by simpa using hne, r, hr,
        by simpa [measurementSpo2, Reading.toMeasurement] using hlt⟩
    · rintro ⟨hne, r, hr, hlt⟩
      exact ⟨by simpa using hne, r.toMeasurement, List.mem_map.mpr ⟨r, hr, rfl⟩,
        by simpa [measurementSpo2, Reading.toMeasurement] using hlt⟩
  · rw [update_status_ok_iff]
    constructor
    · rintro ⟨hne, hall⟩
      refine ⟨by simpa using hne, ?_⟩
      intro r hr
      simpa [measurementSpo2, Reading.toMeasurement] using
        hall r.toMeasurement (List.mem_map.mpr ⟨r, hr, rfl⟩)
    · rintro ⟨hne, hall⟩
      refine ⟨by simpa using hne, ?_⟩
      intro m hm
      obtain ⟨r, hr, rfl⟩ := List.mem_map.mp hm
      simpa [measurementSpo2, Reading.toMeasurement] using hall r hr
  · rw [update_status_unknown_iff]
    simp
  · unfold analyze_data
    simp only [Option.getD_some, extractSpo2s_toMeasurement]
    cases rs with
    | nil => rfl
    | cons r rs =>
      simp only [List.map_cons, pyMin]
      by_cases hmin : (95 : Int) ≤ List.foldl min r.spo2 (List.map Reading.spo2 rs)
      · rw [if_pos hmin]
        rw [le_foldl_min] at hmin
        obtain ⟨hr, hall⟩ := hmin
        have hok : update_status 95 (r.toMeasurement :: List.map Reading.toMeasurement rs) = .OK := by
          rw [update_status_ok_iff]
          refine ⟨List.cons_ne_nil _ _, ?_⟩
          intro m hm
          rcases List.mem_cons.mp hm with rfl | hm
          · simpa [measurementSpo2, Reading.toMeasurement] using hr
          · obtain ⟨s, hs, rfl⟩ := List.mem_map.mp hm
            simpa [measurementSpo2, Reading.toMeasurement] using
              hall s.spo2 (List.mem_map.mpr ⟨s, hs, rfl⟩)
        rw [hok]
      · rw [if_neg hmin]
        rw [le_foldl_min] at hmin
        push_neg at hmin
        have hw : update_status 95 (r.toMeasurement :: List.map Reading.toMeasurement rs) = .Warning := by
          rw [update_status_warning_iff]
          refine ⟨List.cons_ne_nil _ _, ?_⟩
          by_cases hr : (95 : Int) ≤ r.spo2
          · obtain ⟨y, hy, hlt⟩ := hmin hr
            obtain ⟨s, hs, rfl⟩ := List.mem_map.mp hy
            exact ⟨s.toMeasurement,
              List.mem_cons_of_mem _ (List.mem_map.mpr ⟨s, hs, rfl⟩),
              by simpa [measurementSpo2, Reading.toMeasurement] using hlt⟩
          · exact ⟨r.toMeasurement, List.mem_cons_self _ _,
              by simpa [measurementSpo2, Reading.toMeasurement] using not_le.mp hr⟩
        rw [hw]

/-- C2: a row is `LOW` iff its spo2 is strictly below the threshold, `NORMAL`
iff it is at least the threshold (so equality gives `NORMAL`); the comparison
is over all of `Int`, with no clamping or rejection of out-of-range values. -/
theorem C2_per_reading_status (T s : Int) :
    (per_reading_status T s = .LOW ↔ s < T) ∧
    (per_reading_status T s = .NORMAL ↔ T ≤ s) ∧
    per_reading_status T T = .NORMAL := by
  unfold per_reading_status
  refine ⟨?_, ?_, ?_⟩
  · split_ifs with h
    · simp [not_lt.mpr h]
    · simp [not_le.mp h]
  · split_ifs with h
    · simp [h]
    · simp [h]
  · simp

/-- C9: `per_reading_status` is monotone — for a fixed threshold, decreasing
the spo2 value never turns `LOW` into `NORMAL`. -/
theorem C9_per_reading_monotone (T x y : Int) (hxy : x ≤ y)
    (hy : per_reading_status T y = .LOW) : per_reading_status T x = .LOW := by
  unfold per_reading_status at *
  split_ifs with h
  · rw [if_pos (le_trans h hxy)] at hy
    cases hy
  · rfl

/-- C9 witness: at threshold 95, spo2 96 is below 97 and 97 would be `LOW`
were 97 below 95 — concretely, 90 ≤ 94 and 94 is `LOW`, hence 90 is `LOW`. -/
theorem C9_per_reading_monotone_witness :
    per_reading_status 95 90 = .LOW :=
  C9_per_reading_monotone 95 90 94 (by decide) (by decide)

theorem update_table_eq_none {m : Measurement} :
    ∀ {ms : List Measurement}, m ∈ ms → decodeRow m = none → update_table ms = none := by
  intro ms
  induction ms with
  | nil =>
    intro h
    cases h
  | cons a ms ih =>
    intro hm hd
    rcases List.mem_cons.mp hm with rfl | hm
    · unfold update_table
      rw [hd]
    · unfold update_table
      rw [ih hm hd]
      cases decodeRow a <;> rfl

/-- C3 counterexample: a 200 response whose single measurement has a valid
timestamp but no `spo2` field is fetched WITHOUT any error — the claim that a
missing `spo2` field always yields a `DecodeError` is false of the code, which
substitutes 0. -/
theorem C3_missing_spo2_fetch_succeeds :
    (fetch_patient_data 95 1 ⟨none, .Unknown, [], ""⟩
        (.response 200 (some [⟨some "2024-01-01T00:00:00Z", none⟩]))).2 = none ∧
    (fetch_patient_data 95 1 ⟨none, .Unknown, [], ""⟩
        (.response 200 (some [⟨some "2024-01-01T00:00:00Z", none⟩]))).1.measurements =
      [⟨some "2024-01-01T00:00:00Z", none⟩] := by
  decide

/-- C3 (amended): a fetch fails with `TransportError` on network failure or a
4xx/5xx status, and with `DecodeError` whenever some measurement's row fails
to decode — in particular when its timestamp field is missing (the default
`""` does not parse) or malformed.  (A measurement missing only its `spo2`
field does not fail; the value defaults to 0.) -/
theorem C3_fetch_error_taxonomy (T : Int) (pid : Nat) (st : AppState)
    (net : TransportOutcome) :
    (net = .netFail → (fetch_patient_data T pid st net).2 = some .TransportError) ∧
    (∀ status body, net = .response status body → 400 ≤ status → status < 600 →
      (fetch_patient_data T pid st net).2 = some .TransportError) ∧
    (∀ status body ms m, net = .response status body → ¬(400 ≤ status ∧ status < 600) →
      body = some ms → m ∈ ms → decodeRow m = none →
      (fetch_patient_data T pid st net).2 = some .DecodeError) ∧
    (∀ m : Measurement, m.timestamp = none → decodeRow m = none) ∧
    (∀ (m : Measurement) (ts : String), m.timestamp = some ts →
      fromisoformat (pyReplaceZ ts) = none → decodeRow m = none) := by
  refine ⟨?_, ?_, ?_, ?_, ?_⟩
  · rintro rfl
    rfl
  · rintro status body rfl h4 h6
    simp [fetch_patient_data, And.intro h4 h6]
  · rintro status body ms m rfl hs rfl hm hd
    have hu : update_table ms = none := update_table_eq_none hm hd
    simp [fetch_patient_data, hs, hu]
  · intro m ht
    unfold decodeRow
    rw [ht]
    rfl
  · intro m ts ht hbad
    unfold decodeRow
    rw [ht]
    simp [hbad]

/-- C3 witness: an HTTP 500 response is surfaced as a `TransportError`, and a
measurement with the malformed timestamp `"oops"` is a decode failure that
turns a 200 response into a `DecodeError`. -/
theorem C3_fetch_error_taxonomy_witness :
    (fetch_patient_data 95 1 ⟨none, .Unknown, [], ""⟩ (.response 500 none)).2 =
      some .TransportError ∧
    (fetch_patient_data 95 1 ⟨none, .Unknown, [], ""⟩
        (.response 200 (some [⟨some "oops", some 97⟩]))).2 = some .DecodeError :=
  ⟨(C3_fetch_error_taxonomy 95 1 ⟨none, .Unknown, [], ""⟩ (.response 500 none)).2.1
      500 none rfl (by decide) (by decide),
   (C3_fetch_error_taxonomy 95 1 ⟨none, .Unknown, [], ""⟩
        (.response 200 (some [⟨some "oops", some 97⟩]))).2.2.1
      200 (some [⟨some "oops", some 97⟩]) [⟨some "oops", some 97⟩] ⟨some "oops", some 97⟩
      rfl (by decide) rfl (by decide) (by decide)⟩

/-- C6 counterexample: a fetch that fails with a `DecodeError` (malformed
timestamp in the new payload) does NOT leave the previously held ReadingSet in
place — `self.measurements` was already replaced before the parse failure. -/
theorem C6_decode_error_replaces_readings :
    (fetch_patient_data 95 1
        ⟨some 1, .Warning, [⟨some "2024-01-01T00:00:00Z", some 92⟩], "advice"⟩
        (.response 200 (some [⟨some "oops", some 97⟩]))).2 = some .DecodeError ∧
    (fetch_patient_data 95 1
        ⟨some 1, .Warning, [⟨some "2024-01-01T00:00:00Z", some 92⟩], "advice"⟩
        (.response 200 (some [⟨some "oops", some 97⟩]))).1.measurements ≠
      [⟨some "2024-01-01T00:00:00Z", some 92⟩] := by
  decide

/-- C6 (amended): a fetch that fails with a `TransportError` leaves the
previously held ReadingSet, verdict and advice text in place (the failure is
surfaced as the returned error, i.e. the error dialog and red styling); a
fetch that fails with a `DecodeError` leaves the previous verdict and advice
text in place, but the ReadingSet has already been replaced by the new
payload's measurement list. -/
theorem C6_fetch_failure_preserves (T : Int) (pid : Nat) (st : AppState)
    (net : TransportOutcome) :
    ((fetch_patient_data T pid st net).2 = some .TransportError →
      (fetch_patient_data T pid st net).1.measurements = st.measurements ∧
      (fetch_patient_data T pid st net).1.status = st.status ∧
      (fetch_patient_data T pid st net).1.message_text = st.message_text) ∧
    ((fetch_patient_data T pid st net).2 = some .DecodeError →
      (fetch_patient_data T pid st net).1.status = st.status ∧
      (fetch_patient_data T pid st net).1.message_text = st.message_text) ∧
    (∀ status body, net = .response status body →
      (fetch_patient_data T pid st net).2 = some .DecodeError →
      (fetch_patient_data T pid st net).1.measurements = body.getD []) := by
  cases net with
  | netFail => simp [fetch_patient_data]
  | response status body =>
    by_cases hs : 400 ≤ status ∧ status < 600
    · simp [fetch_patient_data, hs]
    · cases hu : update_table (body.getD []) with
      | none => simp [fetch_patient_data, hs, hu]
      | some rows => simp [fetch_patient_data, hs, hu]

/-- C6 witness: with a previous Warning state, an HTTP 500 fetch keeps the old
measurement list, verdict and advice text. -/
theorem C6_fetch_failure_preserves_witness :
    (fetch_patient_data 95 1
        ⟨some 1, .Warning, [⟨some "2024-01-01T00:00:00Z", some 92⟩], "advice"⟩
        (.response 500 none)).1.measurements =
      [⟨some "2024-01-01T00:00:00Z", some 92⟩] ∧
    (fetch_patient_data 95 1
        ⟨some 1, .Warning, [⟨some "2024-01-01T00:00:00Z", some 92⟩], "advice"⟩
        (.response 500 none)).1.status = .Warning ∧
    (fetch_patient_data 95 1
        ⟨some 1, .Warning, [⟨some "2024-01-01T00:00:00Z", some 92⟩], "advice"⟩
        (.response 500 none)).1.message_text = "advice" :=
  (C6_fetch_failure_preserves 95 1
      ⟨some 1, .Warning, [⟨some "2024-01-01T00:00:00Z", some 92⟩], "advice"⟩
      (.response 500 none)).1 (by decide)

/-- C10: a measurement lacking its `spo2` field is evaluated with the value 0
rather than an error, so for any positive threshold it is classified `LOW` and
its presence forces the aggregate verdict to `Warning`; a payload lacking the
`measurements` key is treated as the empty list, and a fetch of it succeeds
with verdict `Unknown`. -/
theorem C10_missing_fields (T : Int) (hT : 0 < T) (t : Option String)
    (ms : List Measurement) (m : Measurement) (hm : m ∈ ms) (hs : m.spo2 = none)
    (pid : Nat) (st : AppState) :
    measurementSpo2 ⟨t, none⟩ = 0 ∧
    per_reading_status T (measurementSpo2 ⟨t, none⟩) = .LOW ∧
    update_status T ms = .Warning ∧
    (fetch_patient_data T pid st (.response 200 none)).1.measurements = [] ∧
    (fetch_patient_data T pid st (.response 200 none)).1.status = .Unknown ∧
    (fetch_patient_data T pid st (.response 200 none)).2 = none := by
  refine ⟨rfl, ?_, ?_, ?_, ?_, ?_⟩
  · have h0 : measurementSpo2 ⟨t, none⟩ = 0 := rfl
    rw [h0]
    unfold per_reading_status
    rw [if_neg (not_le.mpr hT)]
  · rw [update_status_warning_iff]
    refine ⟨List.ne_nil_of_mem hm, m, hm, ?_⟩
    unfold measurementSpo2
    rw [hs]
    exact hT
  · simp [fetch_patient_data, update_table]
  · simp [fetch_patient_data, update_table, update_status]
  · simp [fetch_patient_data, update_table]

/-- C10 witness: at the configured threshold 95, the singleton payload whose
measurement has neither field yields spo2 0, row status `LOW`, and verdict
`Warning`; a body without `measurements` fetches to the empty list and
`Unknown`. -/
theorem C10_missing_fields_witness :
    measurementSpo2 ⟨none, none⟩ = 0 ∧
    per_reading_status 95 (measurementSpo2 ⟨none, none⟩) = .LOW ∧
    update_status 95 [⟨none, none⟩] = .Warning ∧
    (fetch_patient_data 95 1 ⟨none, .Unknown, [], ""⟩ (.response 200 none)).1.measurements = [] ∧
    (fetch_patient_data 95 1 ⟨none, .Unknown, [], ""⟩ (.response 200 none)).1.status = .Unknown ∧
    (fetch_patient_data 95 1 ⟨none, .Unknown, [], ""⟩ (.response 200 none)).2 = none :=
  C10_missing_fields 95 (by decide) none [⟨none, none⟩] ⟨none, none⟩ (by decide) rfl 1
    ⟨none, .Unknown, [], ""⟩

/-- C4: the send operation is a no-op unless the latest verdict is `Warning` —
for every state whose verdict is `OK` or `Unknown`, invoking it makes no
network call and returns the state unchanged (silent guard return). -/
theorem C4_no_send_unless_warning (st : AppState) (net : SendNet)
    (h : st.status = .OK ∨ st.status = .Unknown) :
    send_message st net = ⟨st, .guardReturn, false⟩ := by
  rcases h with h | h <;> simp [send_message, h]

/-- C4 witness: with verdict `OK` and a patient selected, a send attempt
against a server that would store the message still does nothing. -/
theorem C4_no_send_unless_warning_witness :
    send_message ⟨some 1, .OK, [], "advice"⟩ (.response 200 (some true)) =
      ⟨⟨some 1, .OK, [], "advice"⟩, .guardReturn, false⟩ :=
  C4_no_send_unless_warning ⟨some 1, .OK, [], "advice"⟩ (.response 200 (some true))
    (Or.inl rfl)

/-- C5: a send invoked with advice text that strips to empty is rejected
locally — no network call, state unchanged — and when the guards pass it is
surfaced as the missing-message (caller misuse) warning dialog. -/
theorem C5_empty_message_short_circuits (st : AppState) (net : SendNet)
    (h : pyStrip st.message_text = "") :
    (send_message st net).networkCalled = false ∧
    (send_message st net).state = st ∧
    (pyTruthy st.current_patient = true → st.status = .Warning →
      (send_message st net).outcome = .emptyMessageWarning) := by
  by_cases hg : pyTruthy st.current_patient = true ∧ st.status = .Warning
  · simp [send_message, hg, h]
  · refine ⟨?_, ?_, ?_⟩
    · simp [send_message, hg]
    · simp [send_message, hg]
    · intro h1 h2
      exact absurd ⟨h1, h2⟩ hg

/-- C5 witness: all-whitespace advice text in a `Warning` state is rejected
with the missing-message dialog and no network call, even though the network
would have failed. -/
theorem C5_empty_message_short_circuits_witness :
    (send_message ⟨some 1, .Warning, [], "  "⟩ .netFail).networkCalled = false ∧
    (send_message ⟨some 1, .Warning, [], "  "⟩ .netFail).state =
      ⟨some 1, .Warning, [], "  "⟩ ∧
    (pyTruthy (some 1) = true → Verdict.Warning = Verdict.Warning →
      (send_message ⟨some 1, .Warning, [], "  "⟩ .netFail).outcome =
        .emptyMessageWarning) :=
  C5_empty_message_short_circuits ⟨some 1, .Warning, [], "  "⟩ .netFail (by decide)

/-- C7: every send that does not end in a stored acknowledgment — guard
return, empty-message rejection, transport error, or `stored` false/absent —
leaves the advice text exactly as entered; the text is cleared (only) on the
`sentStored` outcome, which requires a non-error response whose body carries
`stored = true`. -/
theorem C7_advice_text_preserved (st : AppState) (net : SendNet) :
    ((send_message st net).outcome ≠ .sentStored →
      (send_message st net).state.message_text = st.message_text) ∧
    (∀ status stored, net = .response status stored →
      (send_message st net).outcome = .sentStored →
      stored = some true ∧ ¬(400 ≤ status ∧ status < 600) ∧
        (send_message st net).state.message_text = "") ∧
    (net = .netFail → (send_message st net).outcome ≠ .sentStored) := by
  by_cases hg : pyTruthy st.current_patient = true ∧ st.status = .Warning
  · by_cases hm : pyStrip st.message_text = ""
    · simp [send_message, hg, hm]
    · cases net with
      | netFail => simp [send_message, hg, hm]
      | response status stored =>
        by_cases hs : 400 ≤ status ∧ status < 600
        · simp [send_message, hg, hm, hs]
        · by_cases hst : stored.getD false = true
          · have hstv : stored = some true := by
              cases stored with
              | none => simp at hst
              | some b =>
                cases b
                · simp at hst
                · rfl
            subst hstv
            simp [send_message, hg, hm, hs]
            omega
          · simp [send_message, hg, hm, hs, hst]
  · simp [send_message, hg]

/-- C7 witness: a transport failure during send leaves the entered advice
text `"rest"` intact. -/
theorem C7_advice_text_preserved_witness :
    (send_message ⟨some 1, .Warning, [], "rest"⟩ .netFail).state.message_text =
      "rest" :=
  (C7_advice_text_preserved ⟨some 1, .Warning, [], "rest"⟩ .netFail).1 (by decide)

/-- C8: a successful send whose JSON body lacks the `stored` field is treated
exactly as `stored = false`: the non-fatal not-stored warning dialog, not an
error, with the state unchanged. -/
theorem C8_missing_stored_nonfatal (st : AppState) (status : Nat)
    (hp : pyTruthy st.current_patient = true) (hw : st.status = .Warning)
    (hm : pyStrip st.message_text ≠ "") (hs : ¬(400 ≤ status ∧ status < 600)) :
    send_message st (.response status none) = ⟨st, .sentNotStored, true⟩ ∧
    send_message st (.response status none) =
      send_message st (.response status (some false)) := by
  constructor <;> simp [send_message, hp, hw, hm, hs]

/-- C8 witness: a 200 response with no `stored` key yields the not-stored
warning outcome, identical to an explicit `{"stored": false}` response. -/
theorem C8_missing_stored_nonfatal_witness :
    send_message ⟨some 1, .Warning, [], "rest"⟩ (.response 200 none) =
      ⟨⟨some 1, .Warning, [], "rest"⟩, .sentNotStored, true⟩ ∧
    send_message ⟨some 1, .Warning, [], "rest"⟩ (.response 200 none) =
      send_message ⟨some 1, .Warning, [], "rest"⟩ (.response 200 (some false)) :=
  C8_missing_stored_nonfatal ⟨some 1, .Warning, [], "rest"⟩ 200 (by decide) rfl
    (by decide) (by decide)
